import Mathlib

/-!
Verification of the in-memory album record store of stevetraut/go-tutorials.

The repository contains two variants of the same tiny web service:
* `web-service-gin.go` — seeds ids "48590","48583","48581"; `addAlbum`
  answers 200 with the full updated list; the lookup miss message is
  "item not found".
* the tutorial text (`web-service-gin.md` / the unnamed tutorial file) —
  seeds ids "1","2","3"; `handleAddAlbum` answers 201 with just the created
  record; the lookup miss message is "album not found".

The store is a Go slice of `album` values; handlers are embedded here as
pure functions from the store state (a `List Album`) and the request data
to a response together with the new store state.
-/

/-- The `album` struct: ID, Title, Artist are strings, Price is a float32.
No arithmetic is ever performed on Price, so it is embedded as a rational. -/
structure Album where
  id : String
  title : String
  artist : String
  price : Rat
deriving DecidableEq

/-- The Go zero value of the `album` struct (`var a album`). -/
def zeroAlbum : Album := ⟨"", "", "", 0⟩

/-- A JSON value, as delivered by the framework's JSON parser. -/
inductive Json where
  | jnull
  | jbool (b : Bool)
  | jnum (q : Rat)
  | jstr (s : String)
  | jarr (xs : List Json)
  | jobj (fields : List (String × Json))

/-- A request body: either text that is not syntactically valid JSON
(the parser reports an error string) or a parsed JSON value. -/
inductive Payload where
  | malformed (err : String)
  | parsed (j : Json)

/-- The body of an HTTP response produced by the handlers: a single album
(`c.JSON(..., a)`), the whole list (`c.JSON(..., albums)`), a
`gin.H` map with a "message" key, or a `gin.H` map with an "error" key. -/
inductive Body where
  | one (a : Album)
  | many (l : List Album)
  | message (m : String)
  | errText (e : String)
deriving DecidableEq

/-- An HTTP response: status code plus JSON body, as passed to `c.JSON`. -/
structure Response where
  status : Nat
  body : Body
deriving DecidableEq

/-- Decoding of one JSON object member into the `album` struct, following
Go `encoding/json` semantics for this struct: a member whose key matches a
struct tag must hold a value of the field's type (string for id/title/artist,
number for price); JSON null leaves the field untouched; unknown keys are
ignored. Returns the updated struct and an error for a type mismatch. -/
def setField (a : Album) (key : String) (v : Json) : Album × Option String :=
  if key = "id" then
    match v with
    | .jstr s => ({ a with id := s }, none)
    | .jnull => (a, none)
    | _ => (a, some "json: cannot unmarshal value into Go struct field album.id of type string")
  else if key = "title" then
    match v with
    | .jstr s => ({ a with title := s }, none)
    | .jnull => (a, none)
    | _ => (a, some "json: cannot unmarshal value into Go struct field album.title of type string")
  else if key = "artist" then
    match v with
    | .jstr s => ({ a with artist := s }, none)
    | .jnull => (a, none)
    | _ => (a, some "json: cannot unmarshal value into Go struct field album.artist of type string")
  else if key = "price" then
    match v with
    | .jnum q => ({ a with price := q }, none)
    | .jnull => (a, none)
    | _ => (a, some "json: cannot unmarshal value into Go struct field album.price of type float32")
  else (a, none)

/-- Keep the first decode error encountered, as Go `encoding/json` does. -/
def firstErr : Option String → Option String → Option String
  | some e, _ => some e
  | none, e2 => e2

/-- Walk the members of a JSON object in order, updating the struct field
by field and remembering the first type-mismatch error (Go `encoding/json`
keeps decoding after saving the first error). -/
def decodeFields (a : Album) (err : Option String) : List (String × Json) → Album × Option String
  | [] => (a, err)
  | (k, v) :: rest =>
    let p := setField a k v
    decodeFields p.1 (firstErr err p.2) rest

/-- Binding a parsed JSON value to the `album` struct: an object is decoded
member by member; JSON null is a no-op that leaves the zero value; any other
top-level value is a type mismatch. -/
def bindAlbum : Json → Except String Album
  | .jobj fields =>
    match decodeFields zeroAlbum none fields with
    | (a, none) => .ok a
    | (_, some e) => .error e
  | .jnull => .ok zeroAlbum
  | _ => .error "json: cannot unmarshal value into Go value of type main.album"

/-- `c.ShouldBindJSON(&a)`: fails on syntactically malformed JSON with the
parser's diagnostic, otherwise binds the parsed value to the struct. -/
def shouldBindJSON : Payload → Except String Album
  | .malformed e => .error e
  | .parsed j => bindAlbum j

/-- Seed data of `web-service-gin.go` (`var albums = []*album{...}`). -/
def seedAlbums : List Album :=
  [⟨"48590", "Blue Train", "John Coltrane", 56.99⟩,
   ⟨"48583", "Jeru", "Gerry Mulligan", 17.99⟩,
   ⟨"48581", "Sarah Vaughan and Clifford Brown", "Sarah Vaughan", 39.99⟩]

/-- Seed data of the tutorial variant (`var albums = []album{...}`). -/
def seedAlbumsTutorial : List Album :=
  [⟨"1", "Blue Train", "John Coltrane", 56.99⟩,
   ⟨"2", "Jeru", "Gerry Mulligan", 17.99⟩,
   ⟨"3", "Sarah Vaughan and Clifford Brown", "Sarah Vaughan", 39.99⟩]

/-- `getAllAlbums` of `web-service-gin.go`: `c.JSON(http.StatusOK, albums)`.
The handler never writes the slice, so the state comes back unchanged. -/
def getAllAlbums (albums : List Album) : Response × List Album :=
  (⟨200, .many albums⟩, albums)

/-- `handleAllAlbums` of the tutorial variant: identical body. -/
def handleAllAlbums (albums : List Album) : Response × List Album :=
  (⟨200, .many albums⟩, albums)

/-- The loop of `getAlbumByID` in `web-service-gin.go`: range over the slice,
return the first album whose ID equals the parameter with 200, else fall
through to 404 with message "item not found". -/
def albumScan : List Album → String → Response
  | [], _ => ⟨404, .message "item not found"⟩
  | a :: rest, id => if a.id = id then ⟨200, .one a⟩ else albumScan rest id

/-- The loop of `handleAlbumByID` in the tutorial variant: same scan, miss
message "album not found". -/
def albumScanTutorial : List Album → String → Response
  | [], _ => ⟨404, .message "album not found"⟩
  | a :: rest, id => if a.id = id then ⟨200, .one a⟩ else albumScanTutorial rest id

/-- `getAlbumByID` of `web-service-gin.go` as a state transformer: the
handler only reads `albums`, so the state comes back unchanged. -/
def getAlbumByID (albums : List Album) (id : String) : Response × List Album :=
  (albumScan albums id, albums)

/-- `handleAlbumByID` of the tutorial variant as a state transformer. -/
def handleAlbumByID (albums : List Album) (id : String) : Response × List Album :=
  (albumScanTutorial albums id, albums)

/-- `addAlbum` of `web-service-gin.go`: on a bind error answer 500 with
`gin.H{"error": err.Error()}` and leave the slice alone; on success append
the new album (`albums = append(albums, &a)`) and answer 200 with the
updated slice. -/
def addAlbum (albums : List Album) (body : Payload) : Response × List Album :=
  match shouldBindJSON body with
  | .error err => (⟨500, .errText err⟩, albums)
  | .ok a => (⟨200, .many (albums ++ [a])⟩, albums ++ [a])

/-- `handleAddAlbum` of the tutorial variant: same bind and same append,
but the success response is 201 with just the new album. -/
def handleAddAlbum (albums : List Album) (body : Payload) : Response × List Album :=
  match shouldBindJSON body with
  | .error err => (⟨500, .errText err⟩, albums)
  | .ok a => (⟨201, .one a⟩, albums ++ [a])

/-- A JSON object member is type-compatible with the `album` struct when a
known key carries a value of the field's type (or null); unknown keys are
always compatible. Characterizes exactly when `setField` reports no error. -/
def fieldTypeOk (key : String) (v : Json) : Bool :=
  if key = "id" ∨ key = "title" ∨ key = "artist" then
    match v with
    | .jstr _ => true
    | .jnull => true
    | _ => false
  else if key = "price" then
    match v with
    | .jnum _ => true
    | .jnull => true
    | _ => false
  else true

/-- A structurally well-formed create payload from the tutorial's POST example. -/
def payload4 : Payload :=
  .parsed (.jobj [("id", .jstr "4"),
                  ("title", .jstr "The Modern Sound of Betty Carter"),
                  ("artist", .jstr "Betty Carter"),
                  ("price", .jnum 49.99)])

/-- The album described by `payload4`. -/
def album4 : Album := ⟨"4", "The Modern Sound of Betty Carter", "Betty Carter", 49.99⟩

lemma setField_snd_eq_none (a : Album) (k : String) (v : Json) :
    (setField a k v).2 = none ↔ fieldTypeOk k v = true := by
  unfold setField fieldTypeOk
  by_cases h1 : k = "id"
  · cases v <;> simp [h1]
  · by_cases h2 : k = "title"
    · cases v <;> simp [h1, h2]
    · by_cases h3 : k = "artist"
      · cases v <;> simp [h1, h2, h3]
      · by_cases h4 : k = "price"
        · cases v <;> simp [h1, h2, h3, h4]
        · simp [h1, h2, h3, h4]

lemma firstErr_eq_none (e1 e2 : Option String) :
    firstErr e1 e2 = none ↔ e1 = none ∧ e2 = none := by
  cases e1 <;> simp [firstErr]

lemma decodeFields_snd_eq_none (fields : List (String × Json)) :
    ∀ (a : Album) (err : Option String),
      (decodeFields a err fields).2 = none ↔
        err = none ∧ ∀ kv ∈ fields, fieldTypeOk kv.1 kv.2 = true := by
  induction fields with
  | nil => intro a err; simp [decodeFields]
  | cons kv rest ih =>
    intro a err
    obtain ⟨k, v⟩ := kv
    simp only [decodeFields]
    rw [ih, firstErr_eq_none, setField_snd_eq_none]
    simp only [List.forall_mem_cons]
    tauto

lemma albumScan_miss (albums : List Album) (id : String)
    (h : ∀ a ∈ albums, a.id ≠ id) :
    albumScan albums id = ⟨404, .message "item not found"⟩ := by
  induction albums with
  | nil => rfl
  | cons a rest ih =>
    have ha : a.id ≠ id := h a (by simp)
    simp only [albumScan, if_neg ha]
    exact ih fun x hx => h x (by simp [hx])

lemma albumScanTutorial_miss (albums : List Album) (id : String)
    (h : ∀ a ∈ albums, a.id ≠ id) :
    albumScanTutorial albums id = ⟨404, .message "album not found"⟩ := by
  induction albums with
  | nil => rfl
  | cons a rest ih =>
    have ha : a.id ≠ id := h a (by simp)
    simp only [albumScanTutorial, if_neg ha]
    exact ih fun x hx => h x (by simp [hx])

/-- C1: get-by-identifier scans the collection in insertion order and
returns the first record whose identifier equals the input with status 200;
if no record has that identifier it returns the 404 not-found result.
The scan agrees with `List.find?`, whose result is the first match. -/
theorem getAlbumByID_scan_first_match (albums : List Album) (id : String) :
    getAlbumByID albums id =
      (match albums.find? (fun a => a.id == id) with
        | some a => ⟨200, .one a⟩
        | none => ⟨404, .message "item not found"⟩,
       albums) := by
  unfold getAlbumByID
  congr 1
  induction albums with
  | nil => rfl
  | cons a rest ih =>
    by_cases h : a.id = id
    · simp [albumScan, h, List.find?]
    · have hb : (a.id == id) = false := by simp [h]
      simp [albumScan, h, List.find?, hb, ih]

/-- C2: a successful add-record appends exactly the bound payload: the new
collection is the old one plus the new record at the end, so it is exactly
one longer, every previously stored record stays in place, and the final
element equals the submitted payload. Holds for both source variants. -/
theorem addAlbum_appends (albums : List Album) (body : Payload) (a : Album)
    (h : shouldBindJSON body = .ok a) :
    (addAlbum albums body).2 = albums ++ [a] ∧
    (addAlbum albums body).2.length = albums.length + 1 ∧
    (addAlbum albums body).2.take albums.length = albums ∧
    (addAlbum albums body).2.getLast? = some a ∧
    (handleAddAlbum albums body).2 = albums ++ [a] ∧
    (handleAddAlbum albums body).2.length = albums.length + 1 ∧
    (handleAddAlbum albums body).2.take albums.length = albums ∧
    (handleAddAlbum albums body).2.getLast? = some a := by
  unfold addAlbum handleAddAlbum
  rw [h]
  refine ⟨rfl, by simp, ?_, ?_, rfl, by simp, ?_, ?_⟩ <;>
    simp [List.take_left, List.getLast?_append]

/-- C2 witness: adding the tutorial's example album to the seeded store. -/
theorem addAlbum_appends_witness :
    shouldBindJSON payload4 = Except.ok album4 ∧
    ((addAlbum seedAlbumsTutorial payload4).2 = seedAlbumsTutorial ++ [album4] ∧
     (addAlbum seedAlbumsTutorial payload4).2.length = seedAlbumsTutorial.length + 1 ∧
     (addAlbum seedAlbumsTutorial payload4).2.take seedAlbumsTutorial.length = seedAlbumsTutorial ∧
     (addAlbum seedAlbumsTutorial payload4).2.getLast? = some album4 ∧
     (handleAddAlbum seedAlbumsTutorial payload4).2 = seedAlbumsTutorial ++ [album4] ∧
     (handleAddAlbum seedAlbumsTutorial payload4).2.length = seedAlbumsTutorial.length + 1 ∧
     (handleAddAlbum seedAlbumsTutorial payload4).2.take seedAlbumsTutorial.length = seedAlbumsTutorial ∧
     (handleAddAlbum seedAlbumsTutorial payload4).2.getLast? = some album4) :=
  ⟨rfl, addAlbum_appends seedAlbumsTutorial payload4 album4 rfl⟩

/-- C3: when binding of the create payload fails, both add-record variants
leave the collection completely unchanged and answer status 500 with the
decode diagnostic under the "error" key. -/
theorem addAlbum_reject_unchanged (albums : List Album) (body : Payload) (e : String)
    (h : shouldBindJSON body = .error e) :
    addAlbum albums body = (⟨500, .errText e⟩, albums) ∧
    handleAddAlbum albums body = (⟨500, .errText e⟩, albums) := by
  unfold addAlbum handleAddAlbum
  rw [h]
  exact ⟨rfl, rfl⟩

/-- C3 witness: a top-level JSON string is not decodable into the record
shape; the seeded store stays as it was. -/
theorem addAlbum_reject_unchanged_witness :
    shouldBindJSON (.parsed (.jstr "oops")) =
      Except.error "json: cannot unmarshal value into Go value of type main.album" ∧
    (addAlbum seedAlbums (.parsed (.jstr "oops")) =
      (⟨500, .errText "json: cannot unmarshal value into Go value of type main.album"⟩,
       seedAlbums) ∧
     handleAddAlbum seedAlbums (.parsed (.jstr "oops")) =
      (⟨500, .errText "json: cannot unmarshal value into Go value of type main.album"⟩,
       seedAlbums)) :=
  ⟨rfl, addAlbum_reject_unchanged seedAlbums (.parsed (.jstr "oops")) _ rfl⟩

/-- C4: on a fresh store, list-all answers 200 with exactly the three
seeded records in seeded order: identifiers 48590, 48583, 48581 in
`web-service-gin.go`, identifiers 1, 2, 3 in the tutorial variant. -/
theorem getAllAlbums_seed :
    getAllAlbums seedAlbums =
      (⟨200, .many [⟨"48590", "Blue Train", "John Coltrane", 56.99⟩,
                    ⟨"48583", "Jeru", "Gerry Mulligan", 17.99⟩,
                    ⟨"48581", "Sarah Vaughan and Clifford Brown", "Sarah Vaughan", 39.99⟩]⟩,
       seedAlbums) ∧
    handleAllAlbums seedAlbumsTutorial =
      (⟨200, .many [⟨"1", "Blue Train", "John Coltrane", 56.99⟩,
                    ⟨"2", "Jeru", "Gerry Mulligan", 17.99⟩,
                    ⟨"3", "Sarah Vaughan and Clifford Brown", "Sarah Vaughan", 39.99⟩]⟩,
       seedAlbumsTutorial) ∧
    seedAlbums.length = 3 ∧ seedAlbumsTutorial.length = 3 ∧
    seedAlbums.map Album.id = ["48590", "48583", "48581"] ∧
    seedAlbumsTutorial.map Album.id = ["1", "2", "3"] :=
  ⟨rfl, rfl, rfl, rfl, rfl, rfl⟩

/-- C5: in a store holding two records with the same identifier, lookup of
that identifier returns the one that occurs earliest in insertion order;
and add-record never rejects a payload because of a duplicate identifier —
any decodable payload is appended regardless of the store's contents. -/
theorem getAlbumByID_first_of_duplicates (pre mid post : List Album) (a b : Album)
    (hdup : b.id = a.id) (hpre : ∀ x ∈ pre, x.id ≠ a.id) :
    (getAlbumByID (pre ++ a :: mid ++ b :: post) a.id).1 = ⟨200, .one a⟩ ∧
    (∀ body c, shouldBindJSON body = .ok c →
      (addAlbum (pre ++ a :: mid ++ b :: post) body).2 =
        (pre ++ a :: mid ++ b :: post) ++ [c]) := by
  constructor
  · unfold getAlbumByID
    induction pre with
    | nil => simp [albumScan]
    | cons x rest ih =>
      have hx : x.id ≠ a.id := hpre x (by simp)
      simp only [List.cons_append, albumScan, if_neg hx]
      exact ih fun y hy => hpre y (by simp [hy])
  · intro body c h
    unfold addAlbum
    rw [h]

/-- C5 witness: two records share identifier 7; lookup returns the first,
and a decodable payload is still appended to the duplicated store. -/
theorem getAlbumByID_first_of_duplicates_witness :
    (Album.mk "7" "C" "D" 2).id = (Album.mk "7" "A" "B" 1).id ∧
    ((getAlbumByID ([] ++ Album.mk "7" "A" "B" 1 :: [] ++ Album.mk "7" "C" "D" 2 :: [])
        (Album.mk "7" "A" "B" 1).id).1 = ⟨200, .one (Album.mk "7" "A" "B" 1)⟩ ∧
     (∀ body c, shouldBindJSON body = .ok c →
       (addAlbum ([] ++ Album.mk "7" "A" "B" 1 :: [] ++ Album.mk "7" "C" "D" 2 :: []) body).2 =
         ([] ++ Album.mk "7" "A" "B" 1 :: [] ++ Album.mk "7" "C" "D" 2 :: []) ++ [c])) :=
  ⟨rfl, getAlbumByID_first_of_duplicates [] [] [] (Album.mk "7" "A" "B" 1)
    (Album.mk "7" "C" "D" 2) rfl (by simp)⟩

/-- C6: when no record carries the requested identifier, both lookup
variants answer 404 — not a 5xx fault — with the fixed message "item not
found" in `web-service-gin.go` and "album not found" in the tutorial
variant, and the store is untouched. -/
theorem getAlbumByID_miss_404 (albums : List Album) (id : String)
    (h : ∀ a ∈ albums, a.id ≠ id) :
    getAlbumByID albums id = (⟨404, .message "item not found"⟩, albums) ∧
    handleAlbumByID albums id = (⟨404, .message "album not found"⟩, albums) ∧
    (getAlbumByID albums id).1.status ≠ 500 ∧
    (handleAlbumByID albums id).1.status ≠ 500 := by
  have h1 := albumScan_miss albums id h
  have h2 := albumScanTutorial_miss albums id h
  unfold getAlbumByID handleAlbumByID
  rw [h1, h2]
  exact ⟨rfl, rfl, by simp, by simp⟩

/-- C6 witness: identifier 999 is absent from the seeded store. -/
theorem getAlbumByID_miss_404_witness :
    (∀ a ∈ seedAlbums, a.id ≠ "999") ∧
    (getAlbumByID seedAlbums "999" = (⟨404, .message "item not found"⟩, seedAlbums) ∧
     handleAlbumByID seedAlbums "999" = (⟨404, .message "album not found"⟩, seedAlbums) ∧
     (getAlbumByID seedAlbums "999").1.status ≠ 500 ∧
     (handleAlbumByID seedAlbums "999").1.status ≠ 500) :=
  ⟨by decide, getAlbumByID_miss_404 seedAlbums "999" (by decide)⟩

/-- C7: a successful add-record answers 200 with the full updated
collection in `web-service-gin.go`, and 201 with only the created record in
the tutorial variant; both append the new record at the end of the store. -/
theorem addAlbum_success_response (albums : List Album) (body : Payload) (a : Album)
    (h : shouldBindJSON body = .ok a) :
    addAlbum albums body = (⟨200, .many (albums ++ [a])⟩, albums ++ [a]) ∧
    handleAddAlbum albums body = (⟨201, .one a⟩, albums ++ [a]) := by
  unfold addAlbum handleAddAlbum
  rw [h]
  exact ⟨rfl, rfl⟩

/-- C7 witness: the tutorial's example POST payload against the .go seed. -/
theorem addAlbum_success_response_witness :
    shouldBindJSON payload4 = Except.ok album4 ∧
    (addAlbum seedAlbums payload4 =
      (⟨200, .many (seedAlbums ++ [album4])⟩, seedAlbums ++ [album4]) ∧
     handleAddAlbum seedAlbums payload4 =
      (⟨201, .one album4⟩, seedAlbums ++ [album4])) :=
  ⟨rfl, addAlbum_success_response seedAlbums payload4 album4 rfl⟩

/-- C8: the read handlers have no side effects: each returns the store it
was given, and repeating a read on the state it produced yields an
identical result in every variant. -/
theorem reads_no_side_effects (albums : List Album) (id : String) :
    (getAllAlbums albums).2 = albums ∧
    (getAlbumByID albums id).2 = albums ∧
    (handleAllAlbums albums).2 = albums ∧
    (handleAlbumByID albums id).2 = albums ∧
    getAllAlbums ((getAllAlbums albums).2) = getAllAlbums albums ∧
    getAlbumByID ((getAlbumByID albums id).2) id = getAlbumByID albums id ∧
    handleAllAlbums ((handleAllAlbums albums).2) = handleAllAlbums albums ∧
    handleAlbumByID ((handleAlbumByID albums id).2) id = handleAlbumByID albums id :=
  ⟨rfl, rfl, rfl, rfl, rfl, rfl, rfl, rfl⟩

/-- C9: every operation preserves the stored records in place and in order:
the store before any call is a front segment of the store after it, and
every previously stored position still reads back the same record. No
operation updates or deletes an existing record. -/
theorem operations_preserve_records (albums : List Album) (id : String) (body : Payload) :
    (getAllAlbums albums).2 = albums ∧
    (getAlbumByID albums id).2 = albums ∧
    (handleAlbumByID albums id).2 = albums ∧
    (∃ tail, (addAlbum albums body).2 = albums ++ tail) ∧
    (∃ tail, (handleAddAlbum albums body).2 = albums ++ tail) ∧
    (∀ i, i < albums.length → (addAlbum albums body).2[i]? = albums[i]?) ∧
    (∀ i, i < albums.length → (handleAddAlbum albums body).2[i]? = albums[i]?) := by
  refine ⟨rfl, rfl, rfl, ?_, ?_, ?_, ?_⟩
  · unfold addAlbum
    cases h : shouldBindJSON body with
    | error e => exact ⟨[], by simp⟩
    | ok a => exact ⟨[a], rfl⟩
  · unfold handleAddAlbum
    cases h : shouldBindJSON body with
    | error e => exact ⟨[], by simp⟩
    | ok a => exact ⟨[a], rfl⟩
  · intro i hi
    unfold addAlbum
    cases h : shouldBindJSON body with
    | error e => rfl
    | ok a => simp [List.getElem?_append_left hi]
  · intro i hi
    unfold handleAddAlbum
    cases h : shouldBindJSON body with
    | error e => rfl
    | ok a => simp [List.getElem?_append_left hi]

lemma bindAlbum_ok_of_fields (fs : List (String × Json))
    (h : ∀ kv ∈ fs, fieldTypeOk kv.1 kv.2 = true) :
    bindAlbum (.jobj fs) = .ok (decodeFields zeroAlbum none fs).1 := by
  have hnone : (decodeFields zeroAlbum none fs).2 = none :=
    (decodeFields_snd_eq_none fs zeroAlbum none).mpr ⟨rfl, h⟩
  unfold bindAlbum
  rcases hd : decodeFields zeroAlbum none fs with ⟨a, e⟩
  rw [hd] at hnone
  cases hnone
  simp [hd]

/-- C10: binding treats every field of the record shape as optional. The
empty JSON object binds to the zero record (empty strings, price 0) and
add-record appends it; any object whose present members are type-compatible
binds successfully; a bind error on an object implies some member is
type-mismatched (never mere absence); syntactically malformed JSON fails
with the parser's diagnostic. -/
theorem bindAlbum_fields_optional (albums : List Album) (fields : List (String × Json))
    (h : ∀ kv ∈ fields, fieldTypeOk kv.1 kv.2 = true) :
    shouldBindJSON (.parsed (.jobj [])) = .ok ⟨"", "", "", 0⟩ ∧
    addAlbum albums (.parsed (.jobj [])) =
      (⟨200, .many (albums ++ [⟨"", "", "", 0⟩])⟩, albums ++ [⟨"", "", "", 0⟩]) ∧
    (∃ a, shouldBindJSON (.parsed (.jobj fields)) = .ok a) ∧
    (∀ fs e, bindAlbum (.jobj fs) = .error e → ∃ kv ∈ fs, fieldTypeOk kv.1 kv.2 = false) ∧
    (∀ e, shouldBindJSON (.malformed e) = .error e) := by
  refine ⟨rfl, rfl, ?_, ?_, fun e => rfl⟩
  · exact ⟨(decodeFields zeroAlbum none fields).1, bindAlbum_ok_of_fields fields h⟩
  · intro fs e he
    by_contra hbad
    push_neg at hbad
    have hall : ∀ kv ∈ fs, fieldTypeOk kv.1 kv.2 = true := by
      intro kv hkv
      simpa using hbad kv hkv
    rw [bindAlbum_ok_of_fields fs hall] at he
    exact Except.noConfusion he

/-- C10 witness: an object holding only an identifier and a price binds
successfully, and the closed facts hold for the seeded store. -/
theorem bindAlbum_fields_optional_witness :
    (∀ kv ∈ [("id", Json.jstr "9"), ("price", Json.jnum 3)],
      fieldTypeOk kv.1 kv.2 = true) ∧
    (shouldBindJSON (.parsed (.jobj [])) = .ok ⟨"", "", "", 0⟩ ∧
     addAlbum seedAlbums (.parsed (.jobj [])) =
       (⟨200, .many (seedAlbums ++ [⟨"", "", "", 0⟩])⟩, seedAlbums ++ [⟨"", "", "", 0⟩]) ∧
     (∃ a, shouldBindJSON (.parsed (.jobj [("id", Json.jstr "9"), ("price", Json.jnum 3)])) =
        .ok a) ∧
     (∀ fs e, bindAlbum (.jobj fs) = .error e → ∃ kv ∈ fs, fieldTypeOk kv.1 kv.2 = false) ∧
     (∀ e, shouldBindJSON (.malformed e) = .error e)) :=
  ⟨by decide,
   bindAlbum_fields_optional seedAlbums [("id", Json.jstr "9"), ("price", Json.jnum 3)]
     (by decide)⟩
